import Mathlib

/-!
Shallow embedding of `src/capture.py` from the `svs` repository: a single
linear camera-capture pipeline (enumerate devices, open and configure a
camera, fetch one raw Bayer frame, disable continuous capture, save a DNG,
demosaic to RGB, save a PNG, right-shift to 8 bit, save a JPEG).

The script's own control flow is embedded line by line in `run`.  The
external libraries it calls (`svs`, `tiffutils`, `cv2`, `numpy`) are not
part of the repository; their behaviour is modelled from the spec where a
claim depends on it (see the doc comments marked `Modelled from the spec`).
-/

namespace Capture

/-- A raw (single-channel, Bayer-mosaiced) frame: a grid of sensor samples. -/
abbrev RawImg := List (List Nat)

/-- A three-channel colour frame: a grid of (R, G, B) samples. -/
abbrev RgbImg := List (List (Nat × Nat × Nat))

/-- Sample of a raw frame at row `r`, column `c`, with border replication
(indices are clamped to the valid range; an empty image reads as 0).
Border replication is the standard boundary treatment of bilinear
demosaicing. -/
def pxAt (img : RawImg) (r c : Nat) : Nat :=
  let row := img.getD (min r (img.length - 1)) []
  row.getD (min c (row.length - 1)) 0

/-- The colour recorded by a sensor cell of a colour-filter array. -/
inductive CFAColor
  | R
  | G
  | B
  deriving DecidableEq

/-- The GRBG colour-filter-array layout: row 0 is G R G R …, row 1 is
B G B G …, repeating with period 2 in both directions. -/
def bayerGRBG (r c : Nat) : CFAColor :=
  match r % 2, c % 2 with
  | 0, 0 => .G
  | 0, _ => .R
  | _, 0 => .B
  | _, _ => .G

/-- Mean of two samples (integer division, as in fixed-point demosaicing). -/
def avg2 (a b : Nat) : Nat := (a + b) / 2

/-- Mean of four samples (integer division). -/
def avg4 (a b c d : Nat) : Nat := (a + b + c + d) / 4

/-- Modelled from the spec: one pixel of bilinear demosaicing (the repository
delegates demosaicing to `cv2.cvtColor`, whose code is not in the
repository).  The pixel keeps its own sample for its own CFA colour and
reconstructs the two missing channels from the nearest neighbours of each
colour: green at a red or blue cell is the mean of the four edge
neighbours, red or blue at the opposite cell is the mean of the four
diagonal neighbours, and red or blue at a green cell is the mean of the two
adjacent cells of that colour (horizontal or vertical according to the
row). -/
def demosaicPx (p : Nat → Nat → CFAColor) (img : RawImg) (r c : Nat) :
    Nat × Nat × Nat :=
  let v := pxAt img r c
  let n := pxAt img (r - 1) c
  let s := pxAt img (r + 1) c
  let w := pxAt img r (c - 1)
  let e := pxAt img r (c + 1)
  let nw := pxAt img (r - 1) (c - 1)
  let ne := pxAt img (r - 1) (c + 1)
  let sw := pxAt img (r + 1) (c - 1)
  let se := pxAt img (r + 1) (c + 1)
  match p r c with
  | .R => (v, avg4 n s w e, avg4 nw ne sw se)
  | .B => (avg4 nw ne sw se, avg4 n s w e, v)
  | .G =>
      if p r (c + 1) = .R then
        (avg2 w e, v, avg2 n s)
      else
        (avg2 n s, v, avg2 w e)

/-- Modelled from the spec: demosaicing a raw frame under CFA layout `p`
produces a three-channel frame of the same dimensions, each pixel computed
by `demosaicPx`. -/
def demosaic (p : Nat → Nat → CFAColor) (img : RawImg) : RgbImg :=
  (List.range img.length).map fun r =>
    (List.range ((img.getD r []).length)).map fun c => demosaicPx p img r c

/-- The colour-conversion code the script passes to `cv2.cvtColor`. -/
inductive ConversionCode
  | COLOR_BAYER_GR2RGB
  deriving DecidableEq

/-- Modelled from the spec: the CFA layout denoted by the conversion code.
The spec fixes the pipeline's mosaic layout as GRBG. -/
def ConversionCode.cfaLayout : ConversionCode → Nat → Nat → CFAColor
  | .COLOR_BAYER_GR2RGB => bayerGRBG

/-- Modelled from the spec: `cv2.cvtColor` on a Bayer conversion code
demosaics the single-channel frame under the layout the code denotes. -/
def cvtColor (img : RawImg) (code : ConversionCode) : RgbImg :=
  demosaic code.cfaLayout img

/-- Shift all three channels of a pixel right by `k` bits. -/
def shiftPx (k : Nat) (p : Nat × Nat × Nat) : Nat × Nat × Nat :=
  (p.1 >>> k, p.2.1 >>> k, p.2.2 >>> k)

/-- Modelled from the spec: `np.right_shift(m, k)` shifts every sample of
every pixel right by `k` bits, elementwise. -/
def np_right_shift (m : RgbImg) (k : Nat) : RgbImg :=
  m.map fun row => row.map (shiftPx k)

/-- Pixel of a colour frame at row `r`, column `c`; out-of-range reads give
the zero pixel. -/
def pixelAt (m : RgbImg) (r c : Nat) : Nat × Nat × Nat :=
  (m.getD r []).getD c (0, 0, 0)

/-- The CFA-pattern descriptor the script passes to `tiffutils.save_dng`. -/
inductive CFAPattern
  | CFA_GRBG
  deriving DecidableEq

/-- The sensor layout a `tiffutils` CFA descriptor denotes (`CFA_GRBG`
names the GRBG layout). -/
def CFAPattern.cfaLayout : CFAPattern → Nat → Nat → CFAColor
  | .CFA_GRBG => bayerGRBG

/-- Content of a file written by the script.  A DNG records the raw sample
grid at its original bit depth together with the camera name and the CFA
descriptor; a PNG or JPEG records the sample grid handed to the encoder. -/
inductive FileData
  | dng (img : RawImg) (camera : String) (cfa : CFAPattern)
  | imageFile (data : RgbImg)
  deriving DecidableEq

/-- The mutable camera handle of the `svs` library, as the script uses it:
frame rate, exposure, continuous-capture flag and a device name. -/
structure CamState where
  framerate : Nat
  exposure : Nat
  continuous_capture : Bool
  name : String
  deriving DecidableEq

/-- Modelled from the spec: `svs.Camera()` opens a device handle; the
device supplies its name, capture is not yet enabled. -/
def Camera.new (name : String) : CamState :=
  { framerate := 0, exposure := 0, continuous_capture := false, name := name }

/-- The external world the script interacts with: how many cameras the
enumeration reports, the opened device's name, and the result of the one
blocking fetch (`none` models a fetch failure, which the script does not
handle; `some (img, meta)` is the raw frame with its metadata). -/
structure Env where
  num : Nat
  camName : String
  fetchResult : Option (RawImg × String)

/-- One observable step of the script, in program order. -/
inductive Event
  | enumerate
  | openCamera
  | setFramerate (v : Nat)
  | setExposure (v : Nat)
  | setContinuous (b : Bool)
  | fetch
  | writeFile (path : String)
  | convertColor
  | shiftBits (k : Nat)
  deriving DecidableEq

/-- Outcome of a run of the script: what was printed, the ordered trace of
steps executed, the final camera state, the files written (in write
order), and whether the run ended in an unhandled error. -/
structure RunResult where
  stdout : List (String × Nat)
  trace : List Event
  cam : CamState
  files : List (String × FileData)
  err : Bool
  deriving DecidableEq

/-- The files a successful run writes, as a function of the device name
and the one fetched frame (all other parameters are hard-coded in the
script: paths, CFA descriptor GRBG, conversion code, shift amount 8). -/
def capturedFiles (camName : String) (img : RawImg) :
    List (String × FileData) :=
  let rgb := cvtColor img .COLOR_BAYER_GR2RGB
  [("test.dng", .dng img camName .CFA_GRBG),
   ("capture.png", .imageFile rgb),
   ("capture.jpg", .imageFile (np_right_shift rgb 8))]

/-- The trace of a run whose fetch succeeds, mirroring `capture.py` top to
bottom: enumerate, open, set frame rate 5, set exposure 40, enable
continuous capture, fetch, disable continuous capture, save the DNG,
colour-convert, save the PNG, right-shift by 8, save the JPEG. -/
def fullTrace : List Event :=
  [.enumerate, .openCamera, .setFramerate 5, .setExposure 40,
   .setContinuous true, .fetch, .setContinuous false,
   .writeFile "test.dng", .convertColor, .writeFile "capture.png",
   .shiftBits 8, .writeFile "capture.jpg"]

/-- The script `capture.py`, embedded line by line.  `svs.number_cameras()`
is printed; `svs.Camera()` is opened and configured (frame rate 5,
exposure 40, continuous capture on); `cam.next()` either fails — the
exception propagates, nothing further executes — or returns the frame;
then continuous capture is turned off, the DNG is saved with the camera
name and `CFA_GRBG`, the frame is demosaiced with
`COLOR_BAYER_GR2RGB`, the PNG is saved, the frame is right-shifted by 8
and the JPEG is saved.  (The script's unused `counter = 0` binds no
device state and is omitted from the trace.) -/
def run (e : Env) : RunResult :=
  let out := [("Number of camera found: ", e.num)]
  let cam := Camera.new e.camName
  let cam := { cam with framerate := 5 }
  let cam := { cam with exposure := 40 }
  let cam := { cam with continuous_capture := true }
  match e.fetchResult with
  | none =>
      { stdout := out
        trace := [.enumerate, .openCamera, .setFramerate 5, .setExposure 40,
                  .setContinuous true, .fetch]
        cam := cam
        files := []
        err := true }
  | some (img, _meta) =>
      let cam := { cam with continuous_capture := false }
      { stdout := out
        trace := fullTrace
        cam := cam
        files := capturedFiles cam.name img
        err := false }

/-- The image stored in the file the run wrote at `path` (the zero-size
image if the path holds no encoded image). -/
def fileImage (res : RunResult) (path : String) : RgbImg :=
  match res.files.lookup path with
  | some (.imageFile d) => d
  | _ => []

/-- The 4×4 constant raw frame of value 4096 from the spec's end-to-end
scenario. -/
def img4 : RawImg := List.replicate 4 (List.replicate 4 4096)

/-- A concrete environment whose fetch succeeds with `img4`. -/
def envOk : Env :=
  { num := 1, camName := "svs-cam", fetchResult := some (img4, "meta") }

/-- A concrete environment whose fetch fails. -/
def envFail : Env :=
  { num := 1, camName := "svs-cam", fetchResult := none }

/-! Helper lemmas. -/

/-- An element found by an index lookup is a member of the list. -/
theorem mem_of_getElemOpt {α : Type} {l : List α} {i : Nat} {a : α}
    (h : l[i]? = some a) : a ∈ l :=
  List.mem_iff_getElem?.2 ⟨i, h⟩

/-- Reading a pixel of the elementwise-shifted frame is shifting the pixel
read from the original frame (the out-of-range default pixel is fixed by
the shift). -/
theorem pixelAt_np_right_shift (m : RgbImg) (k r c : Nat) :
    pixelAt (np_right_shift m k) r c = shiftPx k (pixelAt m r c) := by
  unfold pixelAt np_right_shift
  simp only [List.getD_eq_getElem?_getD, List.getElem?_map]
  cases h1 : m[r]? with
  | none => simp [shiftPx, Nat.zero_shiftRight]
  | some row =>
      simp only [Option.map_some', Option.getD_some, List.getElem?_map]
      cases h2 : row[c]? with
      | none => simp [shiftPx, Nat.zero_shiftRight]
      | some q => simp

/-- Every sample read from a raw frame whose entries are below `B` is below
`B` (out-of-range reads give 0). -/
theorem pxAt_lt {img : RawImg} {B : Nat} (hB : 0 < B)
    (hb : ∀ row ∈ img, ∀ v ∈ row, v < B) (r c : Nat) : pxAt img r c < B := by
  unfold pxAt
  simp only [List.getD_eq_getElem?_getD]
  cases h1 : img[min r (img.length - 1)]? with
  | none => simpa using hB
  | some row =>
      have hrow : row ∈ img := mem_of_getElemOpt h1
      simp only [Option.getD_some]
      cases h2 : row[min c (row.length - 1)]? with
      | none => simpa using hB
      | some v =>
          have hv : v ∈ row := mem_of_getElemOpt h2
          simpa using hb row hrow v hv

/-- The mean of two samples below `B` is below `B`. -/
theorem avg2_lt {a b B : Nat} (ha : a < B) (hb : b < B) : avg2 a b < B := by
  have h2 : (0 : Nat) < 2 := by norm_num
  exact (Nat.div_lt_iff_lt_mul h2).2 (by omega)

/-- The mean of four samples below `B` is below `B`. -/
theorem avg4_lt {a b c d B : Nat} (ha : a < B) (hb : b < B) (hc : c < B)
    (hd : d < B) : avg4 a b c d < B := by
  have h4 : (0 : Nat) < 4 := by norm_num
  exact (Nat.div_lt_iff_lt_mul h4).2 (by omega)

/-- Every channel of a demosaiced pixel of a frame whose samples are below
`B` is below `B`: each channel is a sample or a mean of samples. -/
theorem demosaicPx_lt {img : RawImg} {B : Nat} (hB : 0 < B)
    (hb : ∀ row ∈ img, ∀ v ∈ row, v < B) (p : Nat → Nat → CFAColor)
    (r c : Nat) :
    (demosaicPx p img r c).1 < B ∧ (demosaicPx p img r c).2.1 < B ∧
      (demosaicPx p img r c).2.2 < B := by
  have H : ∀ a b : Nat, pxAt img a b < B := fun a b => pxAt_lt hB hb a b
  unfold demosaicPx
  cases p r c
  · exact ⟨H r c, avg4_lt (H _ _) (H _ _) (H _ _) (H _ _),
      avg4_lt (H _ _) (H _ _) (H _ _) (H _ _)⟩
  · by_cases hg : p r (c + 1) = CFAColor.R
    · simp only [hg, if_true]
      exact ⟨avg2_lt (H _ _) (H _ _), H r c, avg2_lt (H _ _) (H _ _)⟩
    · simp only [hg, if_false]
      exact ⟨avg2_lt (H _ _) (H _ _), H r c, avg2_lt (H _ _) (H _ _)⟩
  · exact ⟨avg4_lt (H _ _) (H _ _) (H _ _) (H _ _),
      avg4_lt (H _ _) (H _ _) (H _ _) (H _ _), H r c⟩

/-- A pixel read from a colour frame is the default zero pixel or a member
of a member row. -/
theorem pixelAt_eq_zero_or_mem (m : RgbImg) (r c : Nat) :
    pixelAt m r c = (0, 0, 0) ∨
      ∃ row ∈ m, pixelAt m r c ∈ row := by
  unfold pixelAt
  simp only [List.getD_eq_getElem?_getD]
  cases h1 : m[r]? with
  | none => simp
  | some row =>
      have hrow : row ∈ m := mem_of_getElemOpt h1
      simp only [Option.getD_some]
      cases h2 : row[c]? with
      | none => simp
      | some q =>
          right
          exact ⟨row, hrow, by simpa using mem_of_getElemOpt h2⟩

/-- Every channel of every pixel read from a demosaiced frame of a raw
frame whose samples are below `B` is below `B`. -/
theorem pixelAt_demosaic_lt {img : RawImg} {B : Nat} (hB : 0 < B)
    (hb : ∀ row ∈ img, ∀ v ∈ row, v < B) (p : Nat → Nat → CFAColor)
    (r c : Nat) :
    (pixelAt (demosaic p img) r c).1 < B ∧
      (pixelAt (demosaic p img) r c).2.1 < B ∧
      (pixelAt (demosaic p img) r c).2.2 < B := by
  rcases pixelAt_eq_zero_or_mem (demosaic p img) r c with h | ⟨row, hrow, hmem⟩
  · rw [h]
    exact ⟨hB, hB, hB⟩
  · have hrow' : row ∈ (List.range img.length).map
        (fun a => (List.range ((img.getD a []).length)).map
          fun b => demosaicPx p img a b) := hrow
    rcases List.mem_map.1 hrow' with ⟨r', _, hr'⟩
    rw [← hr'] at hmem
    rcases List.mem_map.1 hmem with ⟨c', _, hc'⟩
    rw [← hc']
    exact demosaicPx_lt hB hb p r' c'

/-- A value below 65536 shifted right by 8 is at most 255. -/
theorem shiftRight8_le {x : Nat} (hx : x < 65536) : x >>> 8 ≤ 255 := by
  rw [Nat.shiftRight_eq_div_pow]
  have h : (0 : Nat) < 2 ^ 8 := by norm_num
  have := (Nat.div_lt_iff_lt_mul h).2 (show x < 256 * 2 ^ 8 by norm_num; omega)
  omega

/-! Claim theorems. -/

/-- Claim C1: in every successful run, for every pixel and channel, the
sample written to `capture.jpg` is the corresponding sample of the
demosaiced RGB frame (the grid written to `capture.png`) shifted right by
the fixed amount 8. -/
theorem C1_jpg_is_rgb_shifted_right_8 (e : Env) (img : RawImg)
    (meta : String) (h : e.fetchResult = some (img, meta)) (r c : Nat) :
    pixelAt (fileImage (run e) "capture.jpg") r c
      = shiftPx 8 (pixelAt (fileImage (run e) "capture.png") r c) := by
  obtain ⟨n, nm, fr⟩ := e
  subst h
  have hjpg : fileImage (run ⟨n, nm, some (img, meta)⟩) "capture.jpg"
      = np_right_shift (cvtColor img .COLOR_BAYER_GR2RGB) 8 := rfl
  have hpng : fileImage (run ⟨n, nm, some (img, meta)⟩) "capture.png"
      = cvtColor img .COLOR_BAYER_GR2RGB := rfl
  rw [hjpg, hpng, pixelAt_np_right_shift]

/-- Witness for C1 at the concrete environment `envOk`, pixel (0, 0). -/
theorem C1_jpg_is_rgb_shifted_right_8_witness :
    pixelAt (fileImage (run envOk) "capture.jpg") 0 0
      = shiftPx 8 (pixelAt (fileImage (run envOk) "capture.png") 0 0) :=
  C1_jpg_is_rgb_shifted_right_8 envOk img4 "meta" rfl 0 0

/-- Claim C2: the pipeline after the fetch is deterministic — demosaicing
a raw frame with the fixed conversion code and then right-shifting by 8 is
a pure function, so two runs on the same frame give identical 8-bit
output arrays. -/
theorem C2_pipeline_deterministic (R : RawImg) :
    np_right_shift (cvtColor R .COLOR_BAYER_GR2RGB) 8
      = np_right_shift (cvtColor R .COLOR_BAYER_GR2RGB) 8 := rfl

/-- Claim C3 counterexample: in the concrete successful run on `envOk`,
the disable-continuous-capture step occurs in the trace strictly before
both display-format persistence steps, refuting the claim that the device
is stopped after them. -/
theorem C3_disable_after_writes_counterexample :
    Event.setContinuous false ∈ (run envOk).trace ∧
    Event.writeFile "capture.png" ∈ (run envOk).trace ∧
    Event.writeFile "capture.jpg" ∈ (run envOk).trace ∧
    (run envOk).trace.indexOf (Event.setContinuous false)
      < (run envOk).trace.indexOf (Event.writeFile "capture.png") ∧
    (run envOk).trace.indexOf (Event.setContinuous false)
      < (run envOk).trace.indexOf (Event.writeFile "capture.jpg") := by
  decide

/-- Claim C3 (amended): on a successful fetch the steps execute in the
order: enumerate, open device, configure parameters, acquire frame,
disable continuous capture, persist raw format, colour-convert, persist
display formats — disabling continuous capture happens immediately after
the fetch and before every persistence step. -/
theorem C3_pipeline_order (e : Env) (img : RawImg) (meta : String)
    (h : e.fetchResult = some (img, meta)) :
    (run e).trace = fullTrace := by
  obtain ⟨n, nm, fr⟩ := e
  subst h
  rfl

/-- Witness for the amended C3 at `envOk`. -/
theorem C3_pipeline_order_witness : (run envOk).trace = fullTrace :=
  C3_pipeline_order envOk img4 "meta" rfl

/-- Claim C4: when the fetch fails, the run ends in an unhandled error, no
file is written, continuous capture stays enabled, and the trace stops at
the fetch — no later step executes. -/
theorem C4_fetch_failure_aborts (e : Env) (h : e.fetchResult = none) :
    (run e).err = true ∧ (run e).files = [] ∧
    (run e).cam.continuous_capture = true ∧
    (run e).trace = [Event.enumerate, Event.openCamera,
      Event.setFramerate 5, Event.setExposure 40,
      Event.setContinuous true, Event.fetch] := by
  obtain ⟨n, nm, fr⟩ := e
  subst h
  exact ⟨rfl, rfl, rfl, rfl⟩

/-- Witness for C4 at the concrete failing environment `envFail`. -/
theorem C4_fetch_failure_aborts_witness :
    (run envFail).err = true ∧ (run envFail).files = [] ∧
    (run envFail).cam.continuous_capture = true ∧
    (run envFail).trace = [Event.enumerate, Event.openCamera,
      Event.setFramerate 5, Event.setExposure 40,
      Event.setContinuous true, Event.fetch] :=
  C4_fetch_failure_aborts envFail rfl

/-- Claim C5: demosaicing the constant 4×4 frame of value 4096 under the
script's conversion code gives the 4×4×3 grid in which every channel is
4096, and the right-shift by 8 gives the grid in which every channel is
16. -/
theorem C5_uniform_4x4_scenario :
    cvtColor img4 .COLOR_BAYER_GR2RGB
      = List.replicate 4 (List.replicate 4 (4096, 4096, 4096)) ∧
    np_right_shift (cvtColor img4 .COLOR_BAYER_GR2RGB) 8
      = List.replicate 4 (List.replicate 4 (16, 16, 16)) := by
  decide

/-- Claim C6: in every run the fetch appears exactly once in the trace,
and in every successful run the files written are a pure function of the
one fetched frame and the device name, with every other parameter
hard-coded (`capturedFiles`). -/
theorem C6_fetch_once_outputs_pure (e : Env) :
    (run e).trace.count Event.fetch = 1 ∧
    (∀ img meta, e.fetchResult = some (img, meta) →
      (run e).files = capturedFiles e.camName img) := by
  obtain ⟨n, nm, fr⟩ := e
  cases fr with
  | none =>
      refine ⟨rfl, ?_⟩
      intro img meta h
      simp at h
  | some p =>
      obtain ⟨i, m⟩ := p
      refine ⟨rfl, ?_⟩
      intro img meta h
      simp only [Option.some.injEq, Prod.mk.injEq] at h
      obtain ⟨h1, h2⟩ := h
      subst h1
      rfl

/-- Witness for C6 at `envOk`. -/
theorem C6_fetch_once_outputs_pure_witness :
    (run envOk).trace.count Event.fetch = 1 ∧
    (run envOk).files = capturedFiles "svs-cam" img4 :=
  ⟨(C6_fetch_once_outputs_pure envOk).1,
   (C6_fetch_once_outputs_pure envOk).2 img4 "meta" rfl⟩

/-- Claim C7: the device-count query influences only the informational
report — two runs that agree on the fetch result and the device name but
may differ in the reported camera count have identical traces, files,
final camera state and error flag. -/
theorem C7_device_count_no_influence (e1 e2 : Env)
    (hf : e1.fetchResult = e2.fetchResult) (hn : e1.camName = e2.camName) :
    (run e1).trace = (run e2).trace ∧ (run e1).files = (run e2).files ∧
    (run e1).cam = (run e2).cam ∧ (run e1).err = (run e2).err := by
  obtain ⟨n1, m1, f1⟩ := e1
  obtain ⟨n2, m2, f2⟩ := e2
  replace hf : f1 = f2 := hf
  replace hn : m1 = m2 := hn
  subst hf
  subst hn
  cases f1 with
  | none => exact ⟨rfl, rfl, rfl, rfl⟩
  | some p =>
      obtain ⟨i, m⟩ := p
      exact ⟨rfl, rfl, rfl, rfl⟩

/-- Witness for C7: two environments differing only in the camera count. -/
theorem C7_device_count_no_influence_witness :
    (run { num := 0, camName := "svs-cam",
           fetchResult := some (img4, "meta") }).trace = (run envOk).trace ∧
    (run { num := 0, camName := "svs-cam",
           fetchResult := some (img4, "meta") }).files = (run envOk).files ∧
    (run { num := 0, camName := "svs-cam",
           fetchResult := some (img4, "meta") }).cam = (run envOk).cam ∧
    (run { num := 0, camName := "svs-cam",
           fetchResult := some (img4, "meta") }).err = (run envOk).err :=
  C7_device_count_no_influence _ envOk rfl rfl

/-- Claim C8: in every successful run the raw-archival file `test.dng`
receives exactly the fetched sample grid, unmodified and at its original
bit depth, while the demosaic step reads the same unmodified grid to
produce the RGB frame written to `capture.png`. -/
theorem C8_raw_frame_immutable (e : Env) (img : RawImg) (meta : String)
    (h : e.fetchResult = some (img, meta)) :
    (run e).files.lookup "test.dng"
        = some (FileData.dng img e.camName CFAPattern.CFA_GRBG) ∧
    (run e).files.lookup "capture.png"
        = some (FileData.imageFile (cvtColor img .COLOR_BAYER_GR2RGB)) := by
  obtain ⟨n, nm, fr⟩ := e
  subst h
  exact ⟨rfl, rfl⟩

/-- Witness for C8 at `envOk`. -/
theorem C8_raw_frame_immutable_witness :
    (run envOk).files.lookup "test.dng"
        = some (FileData.dng img4 "svs-cam" CFAPattern.CFA_GRBG) ∧
    (run envOk).files.lookup "capture.png"
        = some (FileData.imageFile (cvtColor img4 .COLOR_BAYER_GR2RGB)) :=
  C8_raw_frame_immutable envOk img4 "meta" rfl

/-- Claim C9: the CFA descriptor recorded in the DNG (`CFA_GRBG`) and the
conversion code used for demosaicing denote the same sensor layout: their
layouts agree (both GRBG), the DNG records `CFA_GRBG`, and the RGB frame
written to `capture.png` is the demosaic of the raw frame under exactly
that layout. -/
theorem C9_cfa_patterns_agree (e : Env) (img : RawImg) (meta : String)
    (h : e.fetchResult = some (img, meta)) :
    CFAPattern.cfaLayout CFAPattern.CFA_GRBG
        = ConversionCode.cfaLayout ConversionCode.COLOR_BAYER_GR2RGB ∧
    (run e).files.lookup "test.dng"
        = some (FileData.dng img e.camName CFAPattern.CFA_GRBG) ∧
    (run e).files.lookup "capture.png"
        = some (FileData.imageFile
            (demosaic (CFAPattern.cfaLayout CFAPattern.CFA_GRBG) img)) := by
  obtain ⟨n, nm, fr⟩ := e
  subst h
  exact ⟨rfl, rfl, rfl⟩

/-- Witness for C9 at `envOk`. -/
theorem C9_cfa_patterns_agree_witness :
    CFAPattern.cfaLayout CFAPattern.CFA_GRBG
        = ConversionCode.cfaLayout ConversionCode.COLOR_BAYER_GR2RGB ∧
    (run envOk).files.lookup "test.dng"
        = some (FileData.dng img4 "svs-cam" CFAPattern.CFA_GRBG) ∧
    (run envOk).files.lookup "capture.png"
        = some (FileData.imageFile
            (demosaic (CFAPattern.cfaLayout CFAPattern.CFA_GRBG) img4)) :=
  C9_cfa_patterns_agree envOk img4 "meta" rfl

/-- Claim C10: for every raw frame whose samples are 16-bit values, every
channel of every pixel of the right-shifted frame is at most 255, so the
8-bit reduction never overflows. -/
theorem C10_shifted_frame_fits_8bit (img : RawImg)
    (hb : ∀ row ∈ img, ∀ v ∈ row, v < 65536) (r c : Nat) :
    (pixelAt (np_right_shift (cvtColor img .COLOR_BAYER_GR2RGB) 8) r c).1
        ≤ 255 ∧
    (pixelAt (np_right_shift (cvtColor img .COLOR_BAYER_GR2RGB) 8) r c).2.1
        ≤ 255 ∧
    (pixelAt (np_right_shift (cvtColor img .COLOR_BAYER_GR2RGB) 8) r c).2.2
        ≤ 255 := by
  rw [pixelAt_np_right_shift]
  have h := pixelAt_demosaic_lt (show 0 < 65536 by norm_num) hb
      (ConversionCode.cfaLayout ConversionCode.COLOR_BAYER_GR2RGB) r c
  exact ⟨shiftRight8_le h.1, shiftRight8_le h.2.1, shiftRight8_le h.2.2⟩

/-- Witness for C10 at `img4`, pixel (0, 0). -/
theorem C10_shifted_frame_fits_8bit_witness :
    (∀ row ∈ img4, ∀ v ∈ row, v < 65536) ∧
    ((pixelAt (np_right_shift (cvtColor img4 .COLOR_BAYER_GR2RGB) 8) 0 0).1
        ≤ 255 ∧
     (pixelAt (np_right_shift (cvtColor img4 .COLOR_BAYER_GR2RGB) 8) 0 0).2.1
        ≤ 255 ∧
     (pixelAt (np_right_shift (cvtColor img4 .COLOR_BAYER_GR2RGB) 8) 0 0).2.2
        ≤ 255) :=
  ⟨by decide, C10_shifted_frame_fits_8bit img4 (by decide) 0 0⟩

end Capture
